import Mathlib

/-!
Verification of the Samsung TV wall-remote control core.

Shallow embedding of `src/backend/samsung_controller.py` (and the bulk
fan-out loop of its CLI `main`, together with the aggregation described by
`src/backend/main.py`).  Network effects — ping probes, WebSocket session
channels, the UDP transport of the wake-on-LAN sender — are passed in as
explicit environment values, and the side effects the code performs (UDP
datagrams emitted, session-channel connection attempts, Device-Directory
mutation) are returned explicitly as traces and updated state.
-/

namespace SamsungCtl

/-- A Device Record, as stored in `tv_info.json` under one IP key.
Optional fields model absence of the JSON key (`dict.get` returning the
default).  `last_updated` and `model` play no role in the control flow and
are omitted. -/
structure TVRecord where
  name : Option String
  mac : Option String
  broadcast_ip : Option String
  token : Option String
  deriving Repr, DecidableEq

/-- The Device Directory (`tv_info["tvs"]`): an association of IP address to
Device Record, modelling the Python dict (keys unique in practice). -/
abbrev TVDir := List (String × TVRecord)

/-- Python truthiness of an optional string field: `if not x` is taken for a
missing key and for the empty string. -/
def truthyStr : Option String → Bool
  | none => false
  | some s => s ≠ ""

/-- Embeds `get_tv_info(ip)`: dictionary lookup in the Device Directory. -/
def get_tv_info (dir : TVDir) (ip : String) : Option TVRecord :=
  List.lookup ip dir

/-- Embeds `get_tv_name(ip)`: the name of the record, or the fallback
unknown-TV string when the record or its name key is absent. -/
def get_tv_name (dir : TVDir) (ip : String) : String :=
  match get_tv_info dir ip with
  | some info => info.name.getD ("Unknown TV (" ++ ip ++ ")")
  | none => "Unknown TV (" ++ ip ++ ")"

/-- Embeds `update_tv_info` restricted to the token field, the only
field the control flow mutates: update the record under `ip` when present,
no change when absent (the Python prints an error and returns). -/
def update_tv_token (dir : TVDir) (ip : String) (tok : Option String) : TVDir :=
  (dir : List (String × TVRecord)).map
    (fun p => if p.1 = ip then (p.1, { p.2 with token := tok }) else p)

/-- A per-device Command Outcome: the result dict
`{"ip": ..., "name": ..., "success": ..., "message": ...}` built by the
command processors. -/
structure Outcome where
  ip : String
  name : String
  success : Bool
  message : String
  deriving Repr, DecidableEq

/-- A UDP datagram as emitted by the Wake Signaler: payload bytes,
destination address, destination port. -/
structure Datagram where
  payload : List Nat
  addr : String
  port : Nat
  deriving Repr, DecidableEq

/-- Value of one hexadecimal digit, as accepted by `bytes.fromhex`. -/
def hexDigit (c : Char) : Option Nat :=
  if '0' ≤ c ∧ c ≤ '9' then some (c.toNat - '0'.toNat)
  else if 'a' ≤ c ∧ c ≤ 'f' then some (c.toNat - 'a'.toNat + 10)
  else if 'A' ≤ c ∧ c ≤ 'F' then some (c.toNat - 'A'.toNat + 10)
  else none

/-- ASCII whitespace, which `bytes.fromhex` skips between byte pairs. -/
def isAsciiWs (c : Char) : Bool :=
  c = ' ' ∨ c = '\t' ∨ c = '\n' ∨ c = '\r' ∨ c = Char.ofNat 11 ∨ c = Char.ofNat 12

/-- Embeds `bytes.fromhex`: whitespace may separate byte pairs; each pair of hex
digits yields one byte; any other shape raises `ValueError` (modelled as
`none`). -/
def fromhex : List Char → Option (List Nat)
  | [] => some []
  | c :: rest =>
    if isAsciiWs c then fromhex rest
    else
      match rest with
      | [] => none
      | d :: rest2 =>
        match hexDigit c, hexDigit d with
        | some hi, some lo =>
          match fromhex rest2 with
          | some bs => some ((hi * 16 + lo) :: bs)
          | none => none
        | _, _ => none

/-- Embeds `mac_address.replace` stripping separators, followed by
`bytes.fromhex`: the bytes of the MAC, or `none` on a `ValueError`. -/
def mac_bytes_of (mac_address : String) : Option (List Nat) :=
  fromhex (mac_address.data.filter (fun c => ¬ (c = ':' ∨ c = '-')))

/-- The magic packet `b"\xff" * 6 + mac_bytes * 16`. -/
def magic_packet (mb : List Nat) : List Nat :=
  List.replicate 6 0xff ++ List.flatten (List.replicate 16 mb)

/-- The default value of the `broadcast_ip` parameter of `send_wol_packet`. -/
def wol_default_broadcast : String := "255.255.255.255"

/-- Embeds `send_wol_packet(mac_address, broadcast_ip)`.  `transport` is the UDP
layer: `none` means `sendto` succeeds, `some e` means it raises an
`OSError` with message `e`.  Returns the Python `(bool, str)` result pair
together with the list of datagrams actually emitted.  The parse-failure
message of `bytes.fromhex` carries a position index in CPython; since no
statement inspects it, the index is abbreviated away here. -/
def send_wol_packet (transport : Option String) (mac_address : String)
    (broadcast_ip : String) : (Bool × String) × List Datagram :=
  match mac_bytes_of mac_address with
  | none =>
    ((false, "Error sending WOL packet: non-hexadecimal number found in fromhex() arg"), [])
  | some mb =>
    if mb.length ≠ 6 then
      ((false, "Error sending WOL packet: Invalid MAC"), [])
    else
      match transport with
      | some e => ((false, "Error sending WOL packet: " ++ e), [])
      | none =>
        ((true, "WOL packet sent to " ++ broadcast_ip),
          [⟨magic_packet mb, broadcast_ip, 9⟩])

/-- Embeds `send_wol_packet` called without a `broadcast_ip` argument, using
the default value of that parameter. -/
def send_wol_packet_default (transport : Option String) (mac_address : String) :
    (Bool × String) × List Datagram :=
  send_wol_packet transport mac_address wol_default_broadcast

/-- Behaviour of the pairing Session Channel in `get_token`: either the
connect + first-frame exchange raises (`exn`), or a frame is received and
parsed, with `response.get("data", {}).get("token")` modelled as the
optional `tok` field. -/
inductive PairEnv where
  | exn (msg : String)
  | frame (tok : Option String)
  deriving Repr, DecidableEq

/-- Embeds `get_token(tv_ip, force_pairing)`.  Returns the optional token, the
updated Device Directory, and the number of session-channel connection
attempts made.  Mirrors the source: unknown device → `None` with no network
I/O; cached truthy token honoured unless `force_pairing`; otherwise one
pairing attempt, persisting a truthy received token via `update_tv_info`. -/
def get_token (dir : TVDir) (env : PairEnv) (tv_ip : String)
    (force_pairing : Bool) : Option String × TVDir × Nat :=
  match get_tv_info dir tv_ip with
  | none => (none, dir, 0)
  | some info =>
    if !force_pairing && truthyStr info.token then
      (info.token, dir, 0)
    else
      match env with
      | .exn _ => (none, dir, 1)
      | .frame tok =>
        if truthyStr tok then
          (tok, update_tv_token dir tv_ip tok, 1)
        else
          (none, dir, 1)

/-- Behaviour of the authenticated Session Channel in `send_command`: `exn`
when `create_connection`/`recv`/JSON parsing raises; otherwise the fields
`event` and `message` of the first frame, plus whether the later `ws.send`
of the key payload raises (`sendErr`). -/
inductive ChanEnv where
  | exn (msg : String)
  | frame (event : Option String) (message : Option String) (sendErr : Option String)
  deriving Repr, DecidableEq

/-- Environment of one `send_command` call: the pairing channel its inner
`get_token` would use, and the authenticated command channel. -/
structure SendCmdEnv where
  pair : PairEnv
  chan : ChanEnv
  deriving Repr, DecidableEq

/-- Embeds `send_command(tv_ip, command_key)`.  Returns the `(bool, str)` result,
the updated Device Directory, and the session-channel connection attempts.
Mirrors the source: no token → fail fast; non-`connect` first frame → fail
with `response.get("message", "Connection issue")`, clearing the cached
token exactly on `ms.channel.unauthorized`; otherwise send the key payload
and report `"Sent {command_key}"`. -/
def send_command (dir : TVDir) (env : SendCmdEnv) (tv_ip command_key : String) :
    (Bool × String) × TVDir × Nat :=
  match get_token dir env.pair tv_ip false with
  | (tokOpt, dir1, opens1) =>
    if !truthyStr tokOpt then
      ((false, "Authentication token not available"), dir1, opens1)
    else
      match env.chan with
      | .exn m => ((false, m), dir1, opens1 + 1)
      | .frame event message sendErr =>
        if event ≠ some "ms.channel.connect" then
          if event = some "ms.channel.unauthorized" then
            ((false, message.getD "Connection issue"),
              update_tv_token dir1 tv_ip none, opens1 + 1)
          else
            ((false, message.getD "Connection issue"), dir1, opens1 + 1)
        else
          match sendErr with
          | some m => ((false, m), dir1, opens1 + 1)
          | none => ((true, "Sent " ++ command_key), dir1, opens1 + 1)

/-- First index `i < n` at which the predicate holds, if any: the attempt at
which the power-on verification poll finds the device reachable. -/
def firstHit (p : Nat → Bool) : Nat → Option Nat
  | 0 => none
  | Nat.succ n =>
    if p 0 then some 0 else (firstHit (fun i => p (i + 1)) n).map (· + 1)

/-- Environment of one `handle_power_on` call: the initial `is_tv_on` ping,
the ping result at each of the (up to 10) verification poll attempts, and
the UDP transport of the Wake Signaler. -/
structure PowerOnEnv where
  ping0 : Bool
  pingPoll : Nat → Bool
  wolTransport : Option String

/-- Embeds `handle_power_on(tv_ip)`.  Returns the Outcome dict, the emitted WOL
datagrams, and the number of session-channel connection attempts (the
source never opens one on this path, so the count is 0 everywhere).  When
the device has no Device Record and is not reachable, the Python
`tv_info.get("mac")` raises `AttributeError` on `None`; that unhandled
fault is the `Except.error` case.  The 3-second sleeps between polls are
real time and are not modelled; the poll count (10) is. -/
def handle_power_on (dir : TVDir) (env : PowerOnEnv) (tv_ip : String) :
    Except String (Outcome × List Datagram × Nat) :=
  let name := get_tv_name dir tv_ip
  if env.ping0 then
    .ok (⟨tv_ip, name, true, "TV is already on."⟩, [], 0)
  else
    match get_tv_info dir tv_ip with
    | none => .error "AttributeError: NoneType object has no attribute get"
    | some info =>
      if !truthyStr info.mac then
        .ok (⟨tv_ip, name, false, "No MAC address configured."⟩, [], 0)
      else
        let mac := info.mac.getD ""
        let tv_broadcast_ip := info.broadcast_ip.getD "10.10.111.255"
        match send_wol_packet env.wolTransport mac tv_broadcast_ip with
        | ((success, msg), sent) =>
          if !success then
            .ok (⟨tv_ip, name, false, msg⟩, sent, 0)
          else if (firstHit env.pingPoll 10).isSome then
            .ok (⟨tv_ip, name, true, "TV successfully powered on."⟩, sent, 0)
          else
            .ok (⟨tv_ip, name, true,
              "WOL sent, but verification timed out. TV may be booting slowly."⟩, sent, 0)

/-- Embeds `handle_power_off(tv_ip)`.  `ping` is the `is_tv_on` probe result.
Returns the Outcome, the updated Device Directory, and the
session-channel connection attempts. -/
def handle_power_off (dir : TVDir) (env : SendCmdEnv) (ping : Bool)
    (tv_ip : String) : Outcome × TVDir × Nat :=
  let name := get_tv_name dir tv_ip
  if !ping then
    (⟨tv_ip, name, true, "TV is already off (unresponsive to ping)."⟩, dir, 0)
  else
    match send_command dir env tv_ip "KEY_POWER" with
    | ((success, msg), dir1, opens) =>
      if success then
        (⟨tv_ip, name, true, "Power-off command sent successfully."⟩, dir1, opens)
      else
        (⟨tv_ip, name, false, "Failed to send power-off command: " ++ msg⟩, dir1, opens)

/-- Embeds `process_generic_command(tv_ip, command_key)`: fail fast with
the TV-is-off message when unreachable, otherwise forward the result pair
of `send_command` into the Outcome. -/
def process_generic_command (dir : TVDir) (env : SendCmdEnv) (ping : Bool)
    (tv_ip command_key : String) : Outcome × TVDir × Nat :=
  let name := get_tv_name dir tv_ip
  if !ping then
    (⟨tv_ip, name, false, "TV is off."⟩, dir, 0)
  else
    match send_command dir env tv_ip command_key with
    | ((success, msg), dir1, opens) => (⟨tv_ip, name, success, msg⟩, dir1, opens)

/-- The bulk fan-out loop of `main`: the handler of each target either returns an
Outcome dict or raises; a raised fault is caught at the task boundary and
converted to `{"ip": ip, "name": get_tv_name(ip), "success": False,
"message": str(exc)}`.  The completion order of the thread pool is abstracted to
submission order; the multiset of outcomes is unaffected. -/
def bulk_execute (getName : String → String)
    (exec : String → Except String Outcome) (targets : List String) :
    List Outcome :=
  targets.map (fun ip =>
    match exec ip with
    | .ok r => r
    | .error e => ⟨ip, getName ip, false, e⟩)

/-- Embeds `len([r for r in results if r["success"]])`. -/
def success_count (rs : List Outcome) : Nat :=
  (rs.filter (fun r => r.success)).length

/-- Embeds `len([r for r in results if not r["success"]])`. -/
def failure_count (rs : List Outcome) : Nat :=
  (rs.filter (fun r => !r.success)).length


lemma firstHit_isSome_iff (p : Nat → Bool) (n : Nat) :
    (firstHit p n).isSome = true ↔ ∃ i, i < n ∧ p i = true := by
  induction n generalizing p with
  | zero => simp [firstHit]
  | succ n ih =>
    by_cases h0 : p 0 = true
    · simp only [firstHit, h0, if_true, Option.isSome_some, true_iff]
      exact ⟨0, Nat.succ_pos n, h0⟩
    · have hfh : firstHit p (n + 1)
          = Option.map (· + 1) (firstHit (fun i => p (i + 1)) n) := by
        simp [firstHit, h0]
      have hmap : (Option.map (fun x => x + 1) (firstHit (fun i => p (i + 1)) n)).isSome
          = (firstHit (fun i => p (i + 1)) n).isSome := by
        cases firstHit (fun i => p (i + 1)) n <;> rfl
      rw [hfh, hmap, ih]
      constructor
      · rintro ⟨i, hi, hp⟩
        exact ⟨i + 1, by omega, hp⟩
      · rintro ⟨i, hi, hp⟩
        match i with
        | 0 => exact absurd hp h0
        | Nat.succ j => exact ⟨j, by omega, hp⟩

lemma get_tv_info_update (dir : TVDir) (ip : String) (tok : Option String) :
    get_tv_info (update_tv_token dir ip tok) ip =
      (get_tv_info dir ip).map (fun r => { r with token := tok }) := by
  induction dir with
  | nil => rfl
  | cons hd tl ih =>
    obtain ⟨k, v⟩ := hd
    by_cases hk : k = ip
    · subst hk
      have h1 : (if ((k, v) : String × TVRecord).1 = k
            then ((k, { v with token := tok }) : String × TVRecord)
            else (k, v)) = (k, { v with token := tok }) := if_pos rfl
      simp only [update_tv_token, List.map_cons, h1]
      simp [get_tv_info, List.lookup]
    · have hbeq : (ip == k) = false := by
        simp only [beq_eq_false_iff_ne, ne_eq]
        exact fun h => hk h.symm
      have h1 : (if ((k, v) : String × TVRecord).1 = ip
            then ((k, { v with token := tok }) : String × TVRecord)
            else (k, v)) = (k, v) := if_neg hk
      simp only [update_tv_token, List.map_cons, h1]
      simp only [get_tv_info, List.lookup, hbeq]
      exact ih

lemma truthyStr_none : truthyStr none = false := rfl

lemma success_count_add_failure_count (rs : List Outcome) :
    success_count rs + failure_count rs = rs.length := by
  induction rs with
  | nil => rfl
  | cons r t ih =>
    cases hr : r.success <;>
      simp [success_count, failure_count, List.filter, hr] at ih ⊢ <;> omega

/-- Concrete one-device Device Directory used by witnesses: record with a
name, a MAC, no broadcast override, and a cached token. -/
def dirW : TVDir :=
  [("10.10.111.20", ⟨some "Wall TV", some "aa:bb:cc:dd:ee:ff", none, some "secrettoken"⟩)]

/-- Concrete Device Directory whose single record has no MAC configured. -/
def dirNoMac : TVDir := [("10.10.111.21", ⟨some "Lobby TV", none, none, none⟩)]

/-- Channel environment answering `ms.channel.connect` with a clean send. -/
def envConnectOk : SendCmdEnv :=
  ⟨PairEnv.exn "pairing unused", ChanEnv.frame (some "ms.channel.connect") none none⟩

/-- C6: powerOn on an already reachable device is a no-op success: the
already-on message, no WOL datagram, no session-channel attempt. -/
theorem power_on_already_on (dir : TVDir) (env : PowerOnEnv) (tv_ip : String)
    (h : env.ping0 = true) :
    handle_power_on dir env tv_ip =
      .ok (⟨tv_ip, get_tv_name dir tv_ip, true, "TV is already on."⟩, [], 0) := by
  simp [handle_power_on, h]

theorem power_on_already_on_witness :
    handle_power_on dirW ⟨true, fun _ => false, none⟩ "10.10.111.20" =
      .ok (⟨"10.10.111.20", "Wall TV", true, "TV is already on."⟩, [], 0) :=
  power_on_already_on dirW ⟨true, fun _ => false, none⟩ "10.10.111.20" rfl

/-- C7: powerOff on an unreachable device succeeds with the already-off
message, leaves the directory unchanged, and never opens a channel. -/
theorem power_off_unreachable (dir : TVDir) (env : SendCmdEnv) (tv_ip : String) :
    handle_power_off dir env false tv_ip =
      (⟨tv_ip, get_tv_name dir tv_ip, true,
        "TV is already off (unresponsive to ping)."⟩, dir, 0) := rfl

/-- C8: powerOn on an unreachable device with no MAC fails with the
no-MAC message, sends no WOL datagram, opens no channel. -/
theorem power_on_no_mac (dir : TVDir) (env : PowerOnEnv) (tv_ip : String)
    (info : TVRecord)
    (h0 : env.ping0 = false)
    (hrec : get_tv_info dir tv_ip = some info)
    (hmac : truthyStr info.mac = false) :
    handle_power_on dir env tv_ip =
      .ok (⟨tv_ip, get_tv_name dir tv_ip, false, "No MAC address configured."⟩, [], 0) := by
  simp [handle_power_on, h0, hrec, hmac]

theorem power_on_no_mac_witness :
    handle_power_on dirNoMac ⟨false, fun _ => false, none⟩ "10.10.111.21" =
      .ok (⟨"10.10.111.21", "Lobby TV", false, "No MAC address configured."⟩, [], 0) :=
  power_on_no_mac dirNoMac ⟨false, fun _ => false, none⟩ "10.10.111.21"
    ⟨some "Lobby TV", none, none, none⟩ rfl rfl rfl

/-- C10: getToken for an address with no Device Record returns none with no
directory change and no connection attempt, for any forcePairing flag. -/
theorem get_token_unknown_device (dir : TVDir) (env : PairEnv) (tv_ip : String)
    (force_pairing : Bool)
    (h : get_tv_info dir tv_ip = none) :
    get_token dir env tv_ip force_pairing = (none, dir, 0) := by
  simp [get_token, h]

theorem get_token_unknown_device_witness :
    get_token dirW (PairEnv.frame (some "freshtok")) "10.0.0.99" true =
      (none, dirW, 0) :=
  get_token_unknown_device dirW (PairEnv.frame (some "freshtok")) "10.0.0.99" true rfl

/-- C4 counterexample: with a connect frame and a clean send, the Command
Dispatcher returns the message Sent KEY_POWER, but the powerOff Outcome
carries a different message, so the result is not copied verbatim. -/
theorem power_off_not_verbatim_cex :
    (send_command dirW envConnectOk "10.10.111.20" "KEY_POWER").1 =
      (true, "Sent KEY_POWER") ∧
    (handle_power_off dirW envConnectOk true "10.10.111.20").1.success = true ∧
    (handle_power_off dirW envConnectOk true "10.10.111.20").1.message ≠
      "Sent KEY_POWER" := by
  refine ⟨rfl, rfl, ?_⟩
  decide

/-- C4 amended: the success flag of the Command Dispatcher becomes the
powerOff Outcome flag verbatim, and its state changes are forwarded, but
the message is replaced: a fixed success message, or the Dispatcher
message behind a fixed failure prefix. -/
theorem power_off_dispatch_amended (dir : TVDir) (env : SendCmdEnv) (tv_ip : String) :
    (handle_power_off dir env true tv_ip).1.success =
      (send_command dir env tv_ip "KEY_POWER").1.1 ∧
    (handle_power_off dir env true tv_ip).1.message =
      (if (send_command dir env tv_ip "KEY_POWER").1.1 = true then
        "Power-off command sent successfully."
      else
        "Failed to send power-off command: " ++
          (send_command dir env tv_ip "KEY_POWER").1.2) ∧
    (handle_power_off dir env true tv_ip).2 =
      (send_command dir env tv_ip "KEY_POWER").2 := by
  rcases hsc : send_command dir env tv_ip "KEY_POWER" with ⟨⟨succ, msg⟩, dir1, opens⟩
  cases succ <;> simp [handle_power_off, hsc]

/-- C5: the Wake Signaler emits exactly the 102-byte magic packet, six 0xFF
bytes then the six MAC bytes sixteen times, as a single datagram to port 9
at the given broadcast address, and returns failure as a value exactly when
the MAC is malformed after stripping separators or the transport errors. -/
theorem wol_packet_shape (transport : Option String) (mac bcast : String) :
    (∀ mb, mac_bytes_of mac = some mb → mb.length = 6 → transport = none →
      send_wol_packet transport mac bcast =
        ((true, "WOL packet sent to " ++ bcast), [⟨magic_packet mb, bcast, 9⟩]) ∧
      (magic_packet mb).length = 102) ∧
    ((send_wol_packet transport mac bcast).1.1 = false ↔
      (¬ ∃ mb, mac_bytes_of mac = some mb ∧ mb.length = 6) ∨ transport ≠ none) := by
  constructor
  · intro mb hmb hlen htr
    subst htr
    refine ⟨by simp [send_wol_packet, hmb, hlen], ?_⟩
    simp [magic_packet, List.length_flatten, List.map_replicate, List.sum_replicate, hlen]
  · rcases hmb : mac_bytes_of mac with _ | mb
    · simp [send_wol_packet, hmb]
    · by_cases hlen : mb.length = 6
      · cases htr : transport with
        | none => simp [send_wol_packet, hmb, hlen]
        | some e => simp [send_wol_packet, hmb, hlen]
      · simp [send_wol_packet, hmb, hlen]

theorem wol_packet_shape_witness :
    send_wol_packet none "aa:bb:cc:dd:ee:ff" "10.10.111.255" =
      ((true, "WOL packet sent to 10.10.111.255"),
        [⟨magic_packet [0xaa, 0xbb, 0xcc, 0xdd, 0xee, 0xff], "10.10.111.255", 9⟩]) ∧
    (magic_packet [0xaa, 0xbb, 0xcc, 0xdd, 0xee, 0xff]).length = 102 :=
  (wol_packet_shape none "aa:bb:cc:dd:ee:ff" "10.10.111.255").1
    [0xaa, 0xbb, 0xcc, 0xdd, 0xee, 0xff] rfl rfl rfl

/-- C2: an unauthorized first frame during sendKey yields a failed result
with the server message, clears the cached token on the Device Record, and
a later getToken without forcing pairing attempts pairing instead of
serving the cache. -/
theorem unauthorized_clears_token (dir : TVDir) (env : SendCmdEnv)
    (tv_ip key : String) (info : TVRecord)
    (message sendErr : Option String)
    (hrec : get_tv_info dir tv_ip = some info)
    (htok : truthyStr info.token = true)
    (hchan : env.chan = ChanEnv.frame (some "ms.channel.unauthorized") message sendErr) :
    (send_command dir env tv_ip key).1 = (false, message.getD "Connection issue") ∧
    (get_tv_info (send_command dir env tv_ip key).2.1 tv_ip).map TVRecord.token =
      some none ∧
    (∀ penv, (get_token (send_command dir env tv_ip key).2.1 penv tv_ip false).2.2 = 1) ∧
    (∀ m, get_token (send_command dir env tv_ip key).2.1 (PairEnv.exn m) tv_ip false =
      (none, (send_command dir env tv_ip key).2.1, 1)) := by
  have hsc : send_command dir env tv_ip key =
      ((false, message.getD "Connection issue"), update_tv_token dir tv_ip none, 0 + 1) := by
    simp [send_command, get_token, hrec, htok, hchan]
  have hinfo : get_tv_info (update_tv_token dir tv_ip none) tv_ip =
      some { info with token := none } := by
    rw [get_tv_info_update, hrec]; rfl
  refine ⟨by rw [hsc], by rw [hsc]; rw [hinfo]; rfl, ?_, ?_⟩
  · intro penv
    rw [hsc]
    cases penv with
    | exn m => simp [get_token, hinfo, truthyStr_none]
    | frame tok =>
      cases htok2 : truthyStr tok <;>
        simp [get_token, hinfo, truthyStr_none, htok2]
  · intro m
    rw [hsc]
    simp [get_token, hinfo, truthyStr_none]

theorem unauthorized_clears_token_witness :
    (send_command dirW ⟨PairEnv.exn "unused",
        ChanEnv.frame (some "ms.channel.unauthorized") (some "Token rejected") none⟩
      "10.10.111.20" "KEY_VOLUP").1 = (false, "Token rejected") ∧
    (get_tv_info (send_command dirW ⟨PairEnv.exn "unused",
        ChanEnv.frame (some "ms.channel.unauthorized") (some "Token rejected") none⟩
      "10.10.111.20" "KEY_VOLUP").2.1 "10.10.111.20").map TVRecord.token = some none := by
  have h := unauthorized_clears_token dirW
    ⟨PairEnv.exn "unused",
      ChanEnv.frame (some "ms.channel.unauthorized") (some "Token rejected") none⟩
    "10.10.111.20" "KEY_VOLUP"
    ⟨some "Wall TV", some "aa:bb:cc:dd:ee:ff", none, some "secrettoken"⟩
    (some "Token rejected") none rfl rfl rfl
  exact ⟨h.1, h.2.1⟩

/-- C9: with no broadcast override on the record, powerOn wakes via the
hardcoded subnet broadcast 10.10.111.255, while the default parameter of
the Wake Signaler is the limited broadcast 255.255.255.255, which the
power-on path never uses. -/
theorem power_on_subnet_broadcast (dir : TVDir) (env : PowerOnEnv) (tv_ip : String)
    (info : TVRecord) (mb : List Nat)
    (h0 : env.ping0 = false)
    (hrec : get_tv_info dir tv_ip = some info)
    (hmac : truthyStr info.mac = true)
    (hbc : info.broadcast_ip = none)
    (hmb : mac_bytes_of (info.mac.getD "") = some mb)
    (hlen : mb.length = 6)
    (htr : env.wolTransport = none) :
    (∃ o : Outcome, handle_power_on dir env tv_ip =
      .ok (o, [⟨magic_packet mb, "10.10.111.255", 9⟩], 0)) ∧
    (send_wol_packet_default env.wolTransport (info.mac.getD "")).2 =
      [⟨magic_packet mb, wol_default_broadcast, 9⟩] ∧
    wol_default_broadcast ≠ "10.10.111.255" := by
  have hw : send_wol_packet env.wolTransport (info.mac.getD "") "10.10.111.255" =
      ((true, "WOL packet sent to " ++ "10.10.111.255"),
        [⟨magic_packet mb, "10.10.111.255", 9⟩]) := by
    simp [send_wol_packet, hmb, hlen, htr]
  refine ⟨?_, ?_, by decide⟩
  · by_cases hpoll : (firstHit env.pingPoll 10).isSome = true
    · exact ⟨⟨tv_ip, get_tv_name dir tv_ip, true, "TV successfully powered on."⟩,
        by simp [handle_power_on, h0, hrec, hmac, hbc, hw, hpoll]⟩
    · exact ⟨⟨tv_ip, get_tv_name dir tv_ip, true,
        "WOL sent, but verification timed out. TV may be booting slowly."⟩,
        by simp [handle_power_on, h0, hrec, hmac, hbc, hw, hpoll]⟩
  · simp [send_wol_packet_default, send_wol_packet, hmb, hlen, htr]

theorem power_on_subnet_broadcast_witness :
    ∃ o : Outcome, handle_power_on dirW ⟨false, fun _ => true, none⟩ "10.10.111.20" =
      .ok (o, [⟨magic_packet [0xaa, 0xbb, 0xcc, 0xdd, 0xee, 0xff],
        "10.10.111.255", 9⟩], 0) :=
  (power_on_subnet_broadcast dirW ⟨false, fun _ => true, none⟩ "10.10.111.20"
    ⟨some "Wall TV", some "aa:bb:cc:dd:ee:ff", none, some "secrettoken"⟩
    [0xaa, 0xbb, 0xcc, 0xdd, 0xee, 0xff] rfl rfl rfl rfl rfl rfl rfl).1

/-- C1: on an unreachable device with a MAC and a successful wake send, the
verification poll of up to 10 attempts yields the powered-on success
message when some attempt pings back, and an optimistic success noting the
verification timeout when all 10 attempts fail. -/
theorem power_on_poll (dir : TVDir) (env : PowerOnEnv) (tv_ip : String)
    (info : TVRecord) (mb : List Nat)
    (h0 : env.ping0 = false)
    (hrec : get_tv_info dir tv_ip = some info)
    (hmac : truthyStr info.mac = true)
    (hmb : mac_bytes_of (info.mac.getD "") = some mb)
    (hlen : mb.length = 6)
    (htr : env.wolTransport = none) :
    ((∃ i, i < 10 ∧ env.pingPoll i = true) →
      handle_power_on dir env tv_ip =
        .ok (⟨tv_ip, get_tv_name dir tv_ip, true, "TV successfully powered on."⟩,
          [⟨magic_packet mb, info.broadcast_ip.getD "10.10.111.255", 9⟩], 0)) ∧
    ((∀ i, i < 10 → env.pingPoll i = false) →
      handle_power_on dir env tv_ip =
        .ok (⟨tv_ip, get_tv_name dir tv_ip, true,
          "WOL sent, but verification timed out. TV may be booting slowly."⟩,
          [⟨magic_packet mb, info.broadcast_ip.getD "10.10.111.255", 9⟩], 0)) := by
  have hw : send_wol_packet env.wolTransport (info.mac.getD "")
      (info.broadcast_ip.getD "10.10.111.255") =
      ((true, "WOL packet sent to " ++ info.broadcast_ip.getD "10.10.111.255"),
        [⟨magic_packet mb, info.broadcast_ip.getD "10.10.111.255", 9⟩]) := by
    simp [send_wol_packet, hmb, hlen, htr]
  constructor
  · intro hex
    have hpoll : (firstHit env.pingPoll 10).isSome = true :=
      (firstHit_isSome_iff env.pingPoll 10).2 hex
    simp [handle_power_on, h0, hrec, hmac, hw, hpoll]
  · intro hall
    have hpoll : (firstHit env.pingPoll 10).isSome = false := by
      cases hfh : (firstHit env.pingPoll 10).isSome
      · rfl
      · obtain ⟨i, hi, hp⟩ := (firstHit_isSome_iff env.pingPoll 10).1 hfh
        rw [hall i hi] at hp
        cases hp
    simp [handle_power_on, h0, hrec, hmac, hw, hpoll]

theorem power_on_poll_witness :
    handle_power_on dirW ⟨false, fun _ => true, none⟩ "10.10.111.20" =
      .ok (⟨"10.10.111.20", "Wall TV", true, "TV successfully powered on."⟩,
        [⟨magic_packet [0xaa, 0xbb, 0xcc, 0xdd, 0xee, 0xff], "10.10.111.255", 9⟩], 0) :=
  (power_on_poll dirW ⟨false, fun _ => true, none⟩ "10.10.111.20"
    ⟨some "Wall TV", some "aa:bb:cc:dd:ee:ff", none, some "secrettoken"⟩
    [0xaa, 0xbb, 0xcc, 0xdd, 0xee, 0xff] rfl rfl rfl rfl rfl rfl).1
    ⟨0, by omega, rfl⟩

/-- C3: the bulk fan-out yields exactly one outcome per target, each
outcome carries the address of its target, any fault is converted to a
failed outcome carrying the fault message, and the success and failure
counts partition the N outcomes. -/
theorem bulk_isolation (getName : String → String)
    (exec : String → Except String Outcome) (targets : List String)
    (hip : ∀ ip r, exec ip = Except.ok r → r.ip = ip) :
    (bulk_execute getName exec targets).length = targets.length ∧
    (∀ (i : Nat) (t : String) (o : Outcome), targets[i]? = some t →
      (bulk_execute getName exec targets)[i]? = some o →
      o.ip = t ∧ ∀ e, exec t = Except.error e →
        o.success = false ∧ o.message = e) ∧
    success_count (bulk_execute getName exec targets) +
      failure_count (bulk_execute getName exec targets) = targets.length := by
  refine ⟨by simp [bulk_execute], ?_, ?_⟩
  · intro i t o ht ho
    rw [bulk_execute, List.getElem?_map, ht, Option.map_some'] at ho
    cases hexec : exec t with
    | ok r =>
      rw [hexec] at ho
      injection ho with ho'
      subst ho'
      refine ⟨hip t r hexec, ?_⟩
      intro e he
      exact Except.noConfusion he
    | error e2 =>
      rw [hexec] at ho
      injection ho with ho'
      subst ho'
      refine ⟨rfl, ?_⟩
      intro e he
      injection he with he'
      subst he'
      exact ⟨rfl, rfl⟩
  · rw [success_count_add_failure_count]
    simp [bulk_execute]

/-- Per-target execution used by the bulk witness: the second address
raises an unhandled fault, every other address returns a success dict. -/
def bulkExecW : String → Except String Outcome := fun ip =>
  if ip = "10.0.0.2" then Except.error "boom"
  else Except.ok ⟨ip, "TV", true, "Sent KEY_VOLUP"⟩

theorem bulk_isolation_witness :
    (bulk_execute (fun _ => "TV") bulkExecW ["10.0.0.1", "10.0.0.2"]).length = 2 ∧
    success_count (bulk_execute (fun _ => "TV") bulkExecW ["10.0.0.1", "10.0.0.2"]) +
      failure_count (bulk_execute (fun _ => "TV") bulkExecW ["10.0.0.1", "10.0.0.2"]) = 2 := by
  have hip : ∀ ip r, bulkExecW ip = Except.ok r → r.ip = ip := by
    intro ip r hr
    unfold bulkExecW at hr
    split at hr
    · cases hr
    · injection hr with hr'
      subst hr'
      rfl
  have h := bulk_isolation (fun _ => "TV") bulkExecW ["10.0.0.1", "10.0.0.2"] hip
  exact ⟨h.1, h.2.2⟩

end SamsungCtl
